import Mathlib

/-
Verification of the Lakeshore 625 example notebook
(docs/examples/Lakeshore_625.ipynb).

The artifact is a straight-line interactive script that drives a
Lakeshore Model 625 magnet power supply through an externally
constructed driver handle named magnet.  We embed the script shallowly:

* Param enumerates the driver parameters that appear in the notebook
  (including all parameters surfaced by the recorded snapshot output);
* Var enumerates the local Python variables the script binds;
* Expr and Stmt form a small statement language rich enough to contain
  the Python constructs the specification talks about (branches, loops,
  local function definitions, try/except handlers), so that their
  absence from the transcribed script is a meaningful statement;
* script is the cell-by-cell transcription of the notebook;
* execStmts is a fuel-indexed interpreter that threads a store of
  local variables, consumes an environment of driver responses, and
  emits the trace of driver calls; a division by zero aborts the run
  (the Python behaviour of raising ZeroDivisionError), modelled by an
  Option result.

Numeric values are modelled by the rationals, exact arithmetic standing
in for Python floats.
-/

namespace Lakeshore625

/-- Driver parameters of the Lakeshore 625 handle that the notebook
touches, directly or through the recorded snapshot output of cell-5. -/
inductive Param
  | IDN
  | coil_constant
  | coil_constant_unit
  | current
  | current_limit
  | current_ramp_rate
  | current_rate_limit
  | field
  | field_ramp_rate
  | oer_quench
  | operational_error_status
  | persistent_switch_heater
  | quench_current_step_limit
  | quench_detection
  | ramp_segments
  | ramping_state
  | timeout
  | voltage
  | voltage_limit
  deriving DecidableEq, BEq, Repr

/-- The parameters printed by magnet.print_readable_snapshot(update=True),
transcribed from the recorded output of cell-5 of the notebook. -/
def snapshotParams : List Param :=
  [.IDN, .coil_constant, .coil_constant_unit, .current, .current_limit,
   .current_ramp_rate, .current_rate_limit, .field, .field_ramp_rate,
   .oer_quench, .operational_error_status, .persistent_switch_heater,
   .quench_current_step_limit, .quench_detection, .ramp_segments,
   .ramping_state, .timeout, .voltage, .voltage_limit]

/-- Local Python variables bound by the notebook cells. -/
inductive Var
  | coil_const
  | current_limit
  | current_rate_limit
  | target_current
  | target_field
  | field
  | current
  deriving DecidableEq, Repr

/-- Expressions of the script: literals, local variables, products,
quotients, and parameter reads magnet.p() on the driver handle. -/
inductive Expr
  | lit (q : ℚ)
  | var (x : Var)
  | mul (a b : Expr)
  | div (a b : Expr)
  | getP (p : Param)
  deriving Repr

/-- Statements of the script.  The first eight constructors are the forms
the notebook actually uses; the last four (branch, loop, local function
definition, exception handler) are the Python constructs the spec says
the artifact never uses, included so that their absence is expressible. -/
inductive Stmt
  | pyImport (modName : String)
  | construct (name address : String) (coil_constant field_ramp_rate : ℚ)
  | assign (x : Var) (e : Expr)
  | setP (p : Param) (e : Expr)
  | set_field (e : Expr) (block : Bool)
  | snapshot (update : Bool)
  | exprStmt (e : Expr)
  | print (es : List Expr)
  | ifElse (c : Expr) (thn els : List Stmt)
  | whileLoop (c : Expr) (body : List Stmt)
  | funDef (f : String) (body : List Stmt)
  | tryExcept (body handler : List Stmt)

/-- A call issued on the driver handle: construction, a parameter get,
a parameter set (the blocking default of the qcodes parameter call),
the explicit set_field method with its block flag, or the snapshot
report. -/
inductive Call
  | construct (name address : String) (coil_constant field_ramp_rate : ℚ)
  | get (p : Param)
  | set (p : Param) (v : ℚ)
  | set_field (v : ℚ) (block : Bool)
  | snapshot (update : Bool)
  deriving DecidableEq, Repr

/-- Driver responses: the numeric value the handle returns for each
parameter read. -/
def Env : Type := Param → ℚ

/-- The store of local variables. -/
def Store : Type := Var → ℚ

/-- Evaluate an expression: the value (none on division by zero, the
modelled ZeroDivisionError) together with the driver calls emitted,
left to right. -/
def evalExpr (env : Env) (σ : Store) : Expr → Option ℚ × List Call
  | .lit q => (some q, [])
  | .var x => (some (σ x), [])
  | .mul a b =>
    match evalExpr env σ a with
    | (some va, ta) =>
      match evalExpr env σ b with
      | (some vb, tb) => (some (va * vb), ta ++ tb)
      | (none, tb) => (none, ta ++ tb)
    | (none, ta) => (none, ta)
  | .div a b =>
    match evalExpr env σ a with
    | (some va, ta) =>
      match evalExpr env σ b with
      | (some vb, tb) =>
        if vb = 0 then (none, ta ++ tb) else (some (va / vb), ta ++ tb)
      | (none, tb) => (none, ta ++ tb)
    | (none, ta) => (none, ta)
  | .getP p => (some (env p), [.get p])

/-- Evaluate a list of expressions left to right, stopping at the first
failure. -/
def evalExprs (env : Env) (σ : Store) : List Expr → Option (List ℚ) × List Call
  | [] => (some [], [])
  | e :: es =>
    match evalExpr env σ e with
    | (some v, t) =>
      match evalExprs env σ es with
      | (some vs, t') => (some (v :: vs), t ++ t')
      | (none, t') => (none, t ++ t')
    | (none, t) => (none, t)

/-- Run a statement list: final store (none when an error escaped to the
top, which also happens when the fuel runs out) and the emitted trace of
driver calls.  An unhandled failure aborts the rest of the script; a
tryExcept recovers by running its handler. -/
def execStmts (env : Env) : Nat → Store → List Stmt → Option Store × List Call
  | _, σ, [] => (some σ, [])
  | 0, _, _ :: _ => (none, [])
  | fuel + 1, σ, s :: rest =>
    match s with
    | .pyImport _ => execStmts env fuel σ rest
    | .construct n a c r =>
      let (res, t) := execStmts env fuel σ rest
      (res, .construct n a c r :: t)
    | .assign x e =>
      match evalExpr env σ e with
      | (some v, t) =>
        let (res, t') := execStmts env fuel (fun y => if y = x then v else σ y) rest
        (res, t ++ t')
      | (none, t) => (none, t)
    | .setP p e =>
      match evalExpr env σ e with
      | (some v, t) =>
        let (res, t') := execStmts env fuel σ rest
        (res, t ++ [.set p v] ++ t')
      | (none, t) => (none, t)
    | .set_field e b =>
      match evalExpr env σ e with
      | (some v, t) =>
        let (res, t') := execStmts env fuel σ rest
        (res, t ++ [.set_field v b] ++ t')
      | (none, t) => (none, t)
    | .snapshot u =>
      let (res, t) := execStmts env fuel σ rest
      (res, .snapshot u :: t)
    | .exprStmt e =>
      match evalExpr env σ e with
      | (some _, t) =>
        let (res, t') := execStmts env fuel σ rest
        (res, t ++ t')
      | (none, t) => (none, t)
    | .print es =>
      match evalExprs env σ es with
      | (some _, t) =>
        let (res, t') := execStmts env fuel σ rest
        (res, t ++ t')
      | (none, t) => (none, t)
    | .ifElse c thn els =>
      match evalExpr env σ c with
      | (some v, t) =>
        let (res, t') := execStmts env fuel σ ((if v = 0 then els else thn) ++ rest)
        (res, t ++ t')
      | (none, t) => (none, t)
    | .whileLoop c body =>
      match evalExpr env σ c with
      | (some v, t) =>
        if v = 0 then
          let (res, t') := execStmts env fuel σ rest
          (res, t ++ t')
        else
          let (res, t') := execStmts env fuel σ (body ++ .whileLoop c body :: rest)
          (res, t ++ t')
      | (none, t) => (none, t)
    | .funDef _ _ => execStmts env fuel σ rest
    | .tryExcept body handler =>
      match execStmts env fuel σ body with
      | (some σ', t) =>
        let (res, t') := execStmts env fuel σ' rest
        (res, t ++ t')
      | (none, t) =>
        let (res, t') := execStmts env fuel σ (handler ++ rest)
        (res, t ++ t')

/-- The notebook script, transcribed cell by cell (cells 1 to 17). -/
def script : List Stmt :=
  [ .pyImport "qcodes",
    .pyImport "qcodes_contrib_drivers.drivers.Lakeshore.Model_625",
    .construct "magnet" "GPIB0::4::INSTR" 0.0166614 0.15,
    .exprStmt (.getP .IDN),
    .snapshot true,
    .assign .coil_const (.getP .coil_constant),
    .assign .current_limit (.getP .current_limit),
    .assign .current_rate_limit (.getP .current_rate_limit),
    .print [.var .coil_const],
    .print [.var .current_limit],
    .print [.var .current_rate_limit],
    .assign .target_current (.lit 0.1),
    .assign .target_field (.mul (.var .coil_const) (.var .target_current)),
    .print [.var .target_field],
    .setP .field (.var .target_field),
    .assign .field (.getP .field),
    .print [.var .field],
    .assign .current (.div (.var .field) (.var .coil_const)),
    .print [.var .current],
    .exprStmt (.getP .field),
    .setP .field (.lit 0.005),
    .set_field (.lit 0.01) false,
    .setP .field_ramp_rate (.lit 0.1),
    .print [.getP .field_ramp_rate],
    .print [.getP .current_ramp_rate],
    .setP .field_ramp_rate (.lit 0.2),
    .print [.getP .field_ramp_rate],
    .print [.getP .current_ramp_rate],
    .print [.getP .quench_detection],
    .print [.getP .quench_current_step_limit],
    .print [.getP .oer_quench] ]

/-- The initial store: no local variable is bound yet. -/
def initStore : Store := fun _ => 0

/-- Run the whole script under an environment of driver responses. -/
def execScript (env : Env) : Option Store × List Call :=
  execStmts env 1000 initStore script

/-- The trace of driver calls one run of the script performs. -/
def run (env : Env) : List Call := (execScript env).2

/-- cell-8: target_field = coil_const * target_current. -/
def field_from_current (coil_const target_current : ℚ) : ℚ :=
  coil_const * target_current

/-- cell-8: current = field / coil_const. -/
def current_from_field (coil_const field : ℚ) : ℚ :=
  field / coil_const

/-- Does an expression read the driver parameter p? -/
def expr_reads (p : Param) : Expr → Bool
  | .getP q => p == q
  | .mul a b => expr_reads p a || expr_reads p b
  | .div a b => expr_reads p a || expr_reads p b
  | _ => false

/-- Does an expression read any driver parameter at all? -/
def expr_has_get : Expr → Bool
  | .getP _ => true
  | .mul a b => expr_has_get a || expr_has_get b
  | .div a b => expr_has_get a || expr_has_get b
  | _ => false

/-- A straight-line statement: not a branch, loop, local function
definition, or exception handler. -/
def straight_line : Stmt → Bool
  | .ifElse _ _ _ => false
  | .whileLoop _ _ => false
  | .funDef _ _ => false
  | .tryExcept _ _ => false
  | _ => true

/-- A pass-through statement: an import, the construction, a pure local
binding, a driver call, or a print of values; none of the constructs
that would give the artifact an algorithm, a state machine, or failure
handling of its own. -/
def pass_through : Stmt → Bool
  | .pyImport _ => true
  | .construct _ _ _ _ => true
  | .assign _ _ => true
  | .setP _ _ => true
  | .set_field _ _ => true
  | .snapshot _ => true
  | .exprStmt _ => true
  | .print _ => true
  | .ifElse _ _ _ => false
  | .whileLoop _ _ => false
  | .funDef _ _ => false
  | .tryExcept _ _ => false

/-- An exception handler. -/
def has_error_handling : Stmt → Bool
  | .tryExcept _ _ => true
  | _ => false

/-- A guard: any statement form that could check a condition or
intercept a failure. -/
def is_guard : Stmt → Bool
  | .ifElse _ _ _ => true
  | .whileLoop _ _ => true
  | .tryExcept _ _ => true
  | _ => false

/-- The construction of the driver handle. -/
def is_construct : Stmt → Bool
  | .construct _ _ _ _ => true
  | _ => false

/-- Does the statement touch the driver handle (conservatively true for
the compound constructs, which the script never uses)? -/
def touches_driver : Stmt → Bool
  | .pyImport _ => false
  | .construct _ _ _ _ => true
  | .assign _ e => expr_has_get e
  | .setP _ _ => true
  | .set_field _ _ => true
  | .snapshot _ => true
  | .exprStmt e => expr_has_get e
  | .print es => es.any expr_has_get
  | _ => true

/-- A statement that sets the field: the qcodes parameter call
magnet.field(x) or the explicit magnet.set_field(x, block). -/
def sets_field : Stmt → Bool
  | .setP .field _ => true
  | .set_field _ _ => true
  | _ => false

/-- A field-setting call that passes block=False. -/
def nonblocking : Stmt → Bool
  | .set_field _ false => true
  | _ => false

/-- A statement that sets the field ramp rate. -/
def sets_field_ramp_rate : Stmt → Bool
  | .setP .field_ramp_rate _ => true
  | _ => false

/-- Does the statement display a value read from parameter p: a print
whose arguments read p, or a bare expression reading p, whose value the
notebook echoes? -/
def displays_param (p : Param) : Stmt → Bool
  | .print es => es.any (expr_reads p)
  | .exprStmt e => expr_reads p e
  | _ => false

/-- The cell-8 binding field = magnet.field() of the measured field. -/
def assigns_field_read : Stmt → Bool
  | .assign .field (.getP .field) => true
  | _ => false

/-- The cell-8 print of the measured field variable. -/
def prints_field_var : Stmt → Bool
  | .print [.var .field] => true
  | _ => false

/-- The cell-8 assignment current = field / coil_const. -/
def divides_by_coil_const : Stmt → Bool
  | .assign _ (.div _ (.var .coil_const)) => true
  | _ => false

/-- Driver parameters written by a statement. -/
def written_params : Stmt → List Param
  | .setP p _ => [p]
  | .set_field _ _ => [.field]
  | _ => []

/-- All parameter writes of a statement list. -/
def writes : List Stmt → List Param
  | [] => []
  | s :: rest => written_params s ++ writes rest

/-- Driver parameters read by an expression. -/
def expr_params : Expr → List Param
  | .getP p => [p]
  | .mul a b => expr_params a ++ expr_params b
  | .div a b => expr_params a ++ expr_params b
  | _ => []

/-- Driver parameters read by a list of expressions. -/
def params_of_exprs : List Expr → List Param
  | [] => []
  | e :: es => expr_params e ++ params_of_exprs es

/-- Driver parameters consumed (read or written) by a statement; a
snapshot with update=True reads every parameter it prints, as recorded
in the cell-5 output. -/
def stmt_params : Stmt → List Param
  | .assign _ e => expr_params e
  | .setP p e => expr_params e ++ [p]
  | .set_field _ _ => [.field]
  | .snapshot true => snapshotParams
  | .exprStmt e => expr_params e
  | .print es => params_of_exprs es
  | _ => []

/-- All parameters consumed by a statement list. -/
def consumed : List Stmt → List Param
  | [] => []
  | s :: rest => stmt_params s ++ consumed rest

/-- The accessor list of section 6 of the spec. -/
def spec_accessors : List Param :=
  [.current, .current_limit, .current_ramp_rate, .current_rate_limit,
   .field, .field_ramp_rate, .voltage, .voltage_limit, .quench_detection,
   .quench_current_step_limit, .oer_quench, .persistent_switch_heater,
   .ramping_state, .timeout]

/-- All driver responses zero: in particular the coil constant read back
in cell-7 is zero. -/
def zeroEnv : Env := fun _ => 0

/-- All driver responses one: a nonzero coil constant. -/
def oneEnv : Env := fun _ => 1

/-- Claim C1: the target field passed to the field setter is computed as
coil_constant * target_current and the current recovered from a measured
field as field / coil_constant; for every nonzero coil constant c and
every current i, converting i to a field and back, (c * i) / c, yields
i, so the two conversions are mutual inverses. -/
theorem C1_conversions_mutually_inverse (c i : ℚ) (h : c ≠ 0) :
    current_from_field c (field_from_current c i) = i := by
  unfold current_from_field field_from_current
  exact mul_div_cancel_left₀ i h

/-- Witness for C1 at the coil constant 1 T/A and the target current
0.1 A of cell-8. -/
theorem C1_witness :
    (1 : ℚ) ≠ 0 ∧
      current_from_field 1 (field_from_current 1 0.1) = 0.1 :=
  ⟨one_ne_zero, C1_conversions_mutually_inverse 1 0.1 one_ne_zero⟩

/-- Claim C2: every operation the artifact performs is a pass-through
use of the externally constructed driver handle (a driver call, a pure
local binding of returned values, or a print); no statement of the
script defines an internal algorithm, state machine, or failure
handling of its own. -/
theorem C2_all_pass_through : script.all pass_through = true := by decide

/-- Claim C3: against the single driver handle the script performs an
identification read whose result is displayed, field set and get calls
with the measured field bound and printed, ramp-rate changes with the
read-back displayed, and quench-status queries whose results are
displayed. -/
theorem C3_operations_present :
    (script.any (displays_param .IDN)
      && script.any sets_field
      && script.any assigns_field_read
      && script.any prints_field_var
      && script.any sets_field_ramp_rate
      && script.any (displays_param .field_ramp_rate)
      && script.any (displays_param .quench_detection)
      && script.any (displays_param .quench_current_step_limit)
      && script.any (displays_param .oer_quench)) = true := by decide

/-- Claim C4: exactly one call passes block=False, namely
magnet.set_field(0.01, block=False); every other field-setting call of
the script is the blocking parameter-call form magnet.field(x). -/
theorem C4_single_nonblocking_call :
    script.filter nonblocking = [.set_field (.lit 0.01) false] ∧
      script.filter (fun s => sets_field s && !nonblocking s) =
        [.setP .field (.var .target_field), .setP .field (.lit 0.005)] :=
  ⟨rfl, rfl⟩

/-- Claim C5: the driver handle is constructed exactly once, with
exactly the four parameters name magnet, address GPIB0::4::INSTR, coil
constant 0.0166614 T/A and field ramp rate 0.15 T/min, and no statement
before the construction touches the driver. -/
theorem C5_single_construction :
    script.filter is_construct =
        [.construct "magnet" "GPIB0::4::INSTR" 0.0166614 0.15] ∧
      (script.takeWhile (fun s => !is_construct s)).all
        (fun s => !touches_driver s) = true :=
  ⟨rfl, rfl⟩

/-- Claim C6: every accessor in the spec list of section 6 belongs to
the driver call surface the script consumes, directly or through the
snapshot report of cell-5. -/
theorem C6_spec_accessors_consumed :
    spec_accessors.all (fun p => (consumed script).contains p) = true := by
  decide

/-- Claim C7: the script is a straight-line sequence, with no branch,
loop, locally defined function, or handler; consequently two runs
receiving the same driver responses emit the same sequence of driver
calls. -/
theorem C7_straight_line_deterministic (env₁ env₂ : Env) (h : env₁ = env₂) :
    script.all straight_line = true ∧ run env₁ = run env₂ :=
  ⟨by decide, by rw [h]⟩

/-- Witness for C7 at equal concrete environments. -/
theorem C7_witness :
    script.all straight_line = true ∧ run zeroEnv = run zeroEnv :=
  C7_straight_line_deterministic zeroEnv zeroEnv rfl

/-- Claim C8: the script contains no exception handler, and no branch
or loop that could implement a status check, retry, or recovery;
consequently a failing driver interaction aborts the run unhandled, as
the run under a zero coil constant response shows. -/
theorem C8_no_error_handling :
    script.all (fun s => !has_error_handling s && straight_line s) = true ∧
      ((execScript zeroEnv).1).isNone = true :=
  ⟨by decide, by decide⟩

/-- Claim C9: cell-8 divides the measured field by the coil constant
read back from the driver with no guard: the division is in the script,
the script contains no conditional or handler that could check the
nonzero precondition, the run aborts when the driver reports a zero
coil constant, and completes when it reports a nonzero one. -/
theorem C9_unguarded_division :
    script.any divides_by_coil_const = true ∧
      script.all (fun s => !is_guard s) = true ∧
      ((execScript zeroEnv).1).isNone = true ∧
      ((execScript oneEnv).1).isSome = true :=
  ⟨by decide, by decide, by decide, by decide⟩

/-- Claim C10: the script only ever writes the field setpoint (through
both the parameter call and set_field) and the field ramp rate; each of
the other parameters it touches is consumed read-only and is never
written. -/
theorem C10_frame :
    (writes script).all
        (fun p => [Param.field, Param.field_ramp_rate].contains p) = true ∧
      ([Param.coil_constant, .current_limit, .current_rate_limit,
        .current_ramp_rate, .quench_detection, .quench_current_step_limit,
        .oer_quench].all
          (fun p => !(writes script).contains p
            && (consumed script).contains p)) = true ∧
      script.any (fun s => sets_field s && !nonblocking s) = true ∧
      script.any nonblocking = true ∧
      script.any sets_field_ramp_rate = true :=
  ⟨by decide, by decide, by decide, by decide, by decide⟩

end Lakeshore625
